import Mathlib

/-!
Verification development for the `spoiled` repository.

The repository has two source files:
* a CSS paint worklet (`SpoilerPainter.paint` and its pure helpers: an LCG
  pseudo-random generator, vector / toroidal-wrap math, a trapezoidal
  visibility envelope, and the per-particle lifecycle computation), and
* the page-side controller class `SpoilerPainter` (clock, frame throttling,
  hide / reveal transitions, destruction) from `src/SpoilerPainter.ts`.

We embed both shallowly.  JavaScript `number`s are modelled by `ℚ`
(concrete double literals such as `0.2` are taken at their intended rational
value); the 32-bit integer arithmetic of the LCG (`Math.imul`, `& 0x7fffffff`)
is modelled by `Nat` arithmetic with explicit `% 2^32` / `% 2^31`.  Code that
can throw is modelled with `Except`.  DOM / canvas interaction is modelled as
explicit state: the CSS custom properties the controller publishes become
`Option`-valued fields of the controller state, and the environment facts the
code reads from the host (Houdini support, reduced-motion preference, element
geometry, `performance.now()`, colord output) become explicit parameters.
-/

namespace Spoiled

/-! ## Worklet helpers (from the worklet source file) -/

/-- One step of the seed recurrence of `lcgrand`:
`seed = Math.imul(214013, seed) + 2531011`.  `Math.imul` truncates the
product to 32 bits; the sign of the 32-bit result does not matter because
every later use of the seed is again taken modulo `2^32` (or `2^31`), so the
state is carried as a natural number modulo `2^32`. -/
def lcgStep (s : ℕ) : ℕ := (214013 * s + 2531011) % 4294967296

/-- Iterating the seed recurrence: `lcgIter n s` is the seed state `n`
generator calls past `s`. -/
def lcgIter : ℕ → ℕ → ℕ
  | 0, s => s
  | n + 1, s => lcgStep (lcgIter n s)

/-- The unit output extracted from a seed state:
`(Math.imul(48271, seed) & 0x7fffffff) / 0x7fffffff`.  The bit-and keeps the
low 31 bits of the product, i.e. the product modulo `2^31 = 2147483648`; the
division is by `0x7fffffff = 2147483647`. -/
def lcgOut (s : ℕ) : ℚ := (((48271 * s) % 2147483648 : ℕ) : ℚ) / 2147483647

/-- One call of the generator returned by `lcgrand`:
`(a, b) => a + Math.abs(b - a) * out / 0x7fffffff` together with the updated
seed.  The seed is advanced first (the assignment to `seed` happens inside
the expression), and the output is computed from the new seed. -/
def draw (a b : ℚ) (s : ℕ) : ℚ × ℕ :=
  (a + |b - a| * lcgOut (lcgStep s), lcgStep s)

/-- The linear interpolation helper `lerp = (a, b, t) => a + (b - a) * t`. -/
def lerp (a b t : ℚ) : ℚ := a + (b - a) * t

/-- The trapezoidal visibility envelope
`trapezoidalWave(t, l, n)`: ramp `t / 0.2` while `t < 0.2`, ramp
`(n - t) / l` while `t > n - l`, and `1` in between. -/
def trapezoidalWave (t l n : ℚ) : ℚ :=
  if t < 1/5 then t / (1/5)
  else if n - l < t then (n - t) / l
  else 1

/-- Truncation toward zero, as performed by the JavaScript `%` operator on
its implicit quotient. -/
def jsTrunc (q : ℚ) : ℤ := if 0 ≤ q then ⌊q⌋ else -⌊-q⌋

/-- The JavaScript remainder operator `x % n` on numbers:
`x - n * trunc (x / n)` (the result has the sign of `x`). -/
def jsMod (x n : ℚ) : ℚ := x - n * jsTrunc (x / n)

/-- The sign-corrected modulo `_cycle = (x, n) => ((x % n) + n) % n`. -/
def _cycle (x n : ℚ) : ℚ := jsMod (jsMod x n + n) n

/-- The mirror candidate
`_mirror = (x, n, r) => (x < r ? n + x : x > n - r ? x - n : x)`. -/
def _mirror (x n r : ℚ) : ℚ :=
  if x < r then n + x
  else if n - r < x then x - n
  else x

/-- The toroidal-with-mirror wrap `cycleBounds([x, y], [w, h], r)`.  It wraps
each coordinate with `_cycle` and returns a two-element list: the wrapped
position and the mirror candidate of each coordinate.  (When neither
coordinate is within `r` of an edge the second entry coincides with the
first; the array returned by the source always has two entries, and the
renderer iterates over all of them.) -/
def cycleBounds (p : ℚ × ℚ) (dims : ℚ × ℚ) (r : ℚ) : List (ℚ × ℚ) :=
  [(_cycle p.1 dims.1, _cycle p.2 dims.2),
   (_mirror (_cycle p.1 dims.1) dims.1 r, _mirror (_cycle p.2 dims.2) dims.2 r)]

/-! ## Particle lifecycle (the body of the worklet `paint` loop) -/

/-- The per-paint inputs the particle computation reads: logical surface
size (`size.width / dprx`, `size.height / dprx`), the two gap values parsed
from the published `--gap`, the size deviation (`0.5` on high-DPR devices,
`0` otherwise), and the accent lightness `parseInt(accent[2])` parsed from
the published `--accent`. -/
structure WorkletConfig where
  width : ℚ
  height : ℚ
  vgap : ℚ
  hgap : ℚ
  sizedev : ℚ
  accentLight : ℚ

/-- The values drawn for one particle, in the order the source draws them.
`angleUnit` is the unit draw of `rand(0, Math.PI * 2)`: the launch angle is
`2 * π` times this rational value; the angle itself is consumed only by the
trigonometric position computation (`pol2vec` / `Math.cos` / `Math.sin`),
which lies outside the rational fragment embedded here, so the unit factor
is what is recorded. -/
structure ParticleSpec where
  x0 : ℚ
  y0 : ℚ
  v0mag : ℚ
  size0 : ℚ
  blend : ℚ
  angleUnit : ℚ
  shapeSquare : Bool
  lifetime : ℚ
  respawn : ℚ
  phase : ℚ
  deriving DecidableEq

/-- The ten random draws of one iteration of the `paint` loop, in source
order: origin x (`rand(vgap, width - vgap)`), origin y
(`rand(hgap, height - hgap)`), initial speed (`rand(vmin, vmax)` with
`vmin = 2`, `vmax = 12`), initial size (`rand(1.0, 1.0 + sizedev)`), the
hue-lightness blend factor (`rand()`), the launch angle
(`rand(0, Math.PI * 2)`), the shape choice (`rand() > 0.5`), the lifetime
(`rand(0.3, 1.5)`), the respawn gap (`rand(0, 1)`) and the phase
(`rand(0, lifetime + respawn)`).  Returns the spec together with the seed
state left for the next particle. -/
def particleSpec (cfg : WorkletConfig) (s0 : ℕ) : ParticleSpec × ℕ :=
  let r1 := draw cfg.vgap (cfg.width - cfg.vgap) s0
  let r2 := draw cfg.hgap (cfg.height - cfg.hgap) r1.2
  let r3 := draw 2 12 r2.2
  let r4 := draw 1 (1 + cfg.sizedev) r3.2
  let r5 := draw 0 1 r4.2
  let r6 := draw 0 1 r5.2
  let r7 := draw 0 1 r6.2
  let r8 := draw (3/10) (3/2) r7.2
  let r9 := draw 0 1 r8.2
  let r10 := draw 0 (r8.1 + r9.1) r9.2
  ({ x0 := r1.1, y0 := r2.1, v0mag := r3.1, size0 := r4.1, blend := r5.1,
     angleUnit := r6.1, shapeSquare := decide (1/2 < r7.1),
     lifetime := r8.1, respawn := r9.1, phase := r10.1 }, r10.2)

/-- The specs of the first `k` particles of a paint call, threading the
single generator state through the loop exactly as the source does (the
generator is created once, before the loop, with `lcgrand(19234)`). -/
def paintSpecs (cfg : WorkletConfig) : ℕ → ℕ → List ParticleSpec
  | 0, _ => []
  | k + 1, s => (particleSpec cfg s).1 :: paintSpecs cfg k (particleSpec cfg s).2

/-- The base seed of the paint generator: `lcgrand(19234)`. -/
def baseSeed : ℕ := 19234

/-- The local age of a particle:
`t = Math.min(lifetime, (worldt + phase) % (lifetime + respawn))`. -/
def localAge (worldt : ℚ) (p : ParticleSpec) : ℚ :=
  min p.lifetime (jsMod (worldt + p.phase) (p.lifetime + p.respawn))

/-- The visual quantities computed for a rendered particle.  `alphaPct` is
the rounded percentage interpolated into the `hsl(...)` fill style and
`lightness` is `Math.floor(lerp(l * 0.5, l, blend))` for the accent
lightness `l`.  The screen position feeds the (trigonometric) velocity
integration and then `cycleBounds`; the wrap itself is verified separately
on `cycleBounds`. -/
structure RenderState where
  visibility : ℚ
  alpha : ℚ
  size : ℚ
  alphaPct : ℤ
  lightness : ℤ
  shapeSquare : Bool
  deriving DecidableEq

/-- The visible part of one loop iteration of `paint` for a given particle:
`none` when `t >= lifetime` (the `continue`), otherwise the computed render
state with `visibility = trapezoidalWave(t, 0.5, lifetime)`,
`alpha = 1 - t / lifetime` and `size = size0 * visibility`. -/
def renderParticle (cfg : WorkletConfig) (worldt : ℚ) (p : ParticleSpec) :
    Option RenderState :=
  if p.lifetime ≤ localAge worldt p then none
  else
    some { visibility := trapezoidalWave (localAge worldt p) (1/2) p.lifetime,
           alpha := 1 - localAge worldt p / p.lifetime,
           size := p.size0 * trapezoidalWave (localAge worldt p) (1/2) p.lifetime,
           alphaPct := round ((1 - localAge worldt p / p.lifetime) * 100),
           lightness := ⌊lerp (cfg.accentLight / 2) cfg.accentLight p.blend⌋,
           shapeSquare := p.shapeSquare }

/-- The particle-count bound of `paint`:
`n = Math.min(4000, width * height / density)` with the local constant
`density = 6` (the published `--density` channel value is not consulted by
the worklet). -/
def nParticles (width height : ℚ) : ℚ := min 4000 (width * height / 6)

/-- The static `inputProperties` getter of the worklet class: the list of
properties the paint context makes readable to `paint`. -/
def inputProperties : List String := ["--t", "--gap", "--accent"]

/-- Modelled from the spec: the particle count the specification describes,
namely the lesser of the hard cap and the surface area divided by the
density value published on the `--density` channel.  Used only to compare
with the count the worklet actually computes. -/
def specNParticles (width height densityChannel : ℚ) : ℚ :=
  min 4000 (width * height / densityChannel)

/-- Modelled from the spec (claim wording for the visibility envelope): a
linear fade-in over the first `0.2` normalized time units and a linear
fade-out whose window is the final `lifetime - 0.2` portion of the
lifetime.  Used only to compare with `trapezoidalWave` as invoked by
`paint`. -/
def specTrapezoid (t lifetime : ℚ) : ℚ :=
  if t < 1/5 then t / (1/5)
  else if lifetime - (lifetime - 1/5) < t then (lifetime - t) / (lifetime - 1/5)
  else 1

/-! ## Controller (`SpoilerPainter` class of `src/SpoilerPainter.ts`)

The class's private mutable fields and the CSS custom properties it writes
on its element are collected into one state record.  The paired
setter/property writes (`t`, `#tstop`, `#fadeDuration`) are modelled by
helper functions that always perform the dual write.  Host facts are
explicit parameters: `houdini` stands for `isCSSHoudiniSupported`,
`reduced` for `prefersReducedMotion`, and `now` for `performance.now()`
timestamps handed to the frame callback (in milliseconds).  The published
`--t` / `--t-stop` values are written with `toFixed(3)`; the state stores
the exact rational, the three-decimal formatting being presentation only. -/

/-- The `background` style the controller assigns: either the fallback
`var(--fallback)` or `paint(spoiler) ... / ws hs` produced by
`useBackgroundStyle` (`none` in a size slot stands for `"auto"`). -/
inductive BackgroundStyle where
  | fallbackVar : BackgroundStyle
  | paintStyle (ws hs : Option ℚ) (tile : Bool) : BackgroundStyle
  deriving DecidableEq

/-- The controller state: the private fields of the `SpoilerPainter` class
together with the style properties it publishes on its element.  Field
defaults are the field initializers of the class (`#raf` ids returned by
`requestAnimationFrame` are positive, hence `nextRafId` starts at 1). -/
structure PainterState where
  wasDestroyed : Bool := false
  isHidden : Bool := false
  maxFPS : ℚ := 24
  forceFallback : Bool := false
  fadeDuration : ℚ := 0
  t : ℚ := 0
  t0 : ℚ := 0
  tstop : Option ℚ := none
  raf : Option ℕ := none
  nextRafId : ℕ := 1
  styleT : Option ℚ := none
  styleTstop : Option ℚ := none
  styleFade : Option ℚ := none
  styleGap : Option (ℤ × ℤ) := none
  styleWords : Option Bool := none
  styleDensity : Option ℚ := none
  styleAccent : Option (ℚ × ℚ × ℚ) := none
  styleBackground : Option BackgroundStyle := none
  styleFallback : Option String := none
  deriving DecidableEq

/-- The `t` setter: stores the value and publishes `--t`. -/
def setT (v : ℚ) (s : PainterState) : PainterState :=
  { s with t := v, styleT := some v }

/-- The `#tstop` setter: stores the value and publishes `--t-stop`
(`removeProperty` when the value is `null`). -/
def setTstop (v : Option ℚ) (s : PainterState) : PainterState :=
  { s with tstop := v, styleTstop := v }

/-- The `#fadeDuration` setter: stores the value and publishes `--fade`. -/
def setFade (v : ℚ) (s : PainterState) : PainterState :=
  { s with fadeDuration := v, styleFade := some v }

/-- The accessor `isAnimating`: `this.#raf !== null`. -/
def isAnimating (s : PainterState) : Bool := s.raf.isSome

/-- The stop test of the frame callback:
`this.#tstop && this.t > this.#tstop + this.#fadeDuration`.  A `null` or
`0` stop mark is falsy and therefore never stops the loop. -/
def shouldStop (s : PainterState) : Bool :=
  match s.tstop with
  | none => false
  | some v => decide (v ≠ 0) && decide (v + s.fadeDuration < s.t)

/-- The scheduling step of the frame callback:
`this.#raf = requestAnimationFrame(this.#frame)` — the pending handle
becomes the next (positive) request id. -/
def scheduleTick (s : PainterState) : PainterState :=
  { s with raf := some s.nextRafId, nextRafId := s.nextRafId + 1 }

/-- The throttle-and-advance lower half of the frame callback, applied to
the state after the optional scheduling (which leaves `t`, `t0` and
`maxFPS` untouched): `dt = now - this.#t0` is computed and the frame is
skipped when `0 < dt < 1000 / maxFPS` (with `maxFPS = 0` the JavaScript
quotient is `Infinity`, so every `dt > 0` is skipped — hence the explicit
`maxFPS = 0` disjunct); otherwise the clock advances by `dt / 1000` and the
reference time is set to `now`. -/
def frameAdvance (now : ℚ) (s1 : PainterState) : PainterState :=
  if 0 < now - s1.t0 ∧ (s1.maxFPS = 0 ∨ now - s1.t0 < 1000 / s1.maxFPS) then s1
  else { setT (s1.t + (now - s1.t0) / 1000) s1 with t0 := now }

/-- The frame callback `#frame(now)`.  A destroyed painter returns at once.
Otherwise the next tick is scheduled first (only when `maxFPS > 0` and the
stop test fails), and then the throttle-and-advance step runs. -/
def frame (now : ℚ) (s : PainterState) : PainterState :=
  if s.wasDestroyed then s
  else frameAdvance now
    (if 0 < s.maxFPS ∧ shouldStop s = false then scheduleTick s else s)

/-- `startAnimation()`: record `performance.now()` as the reference time and
invoke the frame callback synchronously with it. -/
def startAnimation (now : ℚ) (s : PainterState) : PainterState :=
  frame now { s with t0 := now }

/-- `stopAnimation()`: cancel and clear the pending frame handle when one is
set (`if (this.#raf)`; an id of `0` would be falsy, but ids are positive). -/
def stopAnimation (s : PainterState) : PainterState :=
  match s.raf with
  | some id => if id = 0 then s else { s with raf := none }
  | none => s

/-- Iterating the frame callback over a list of host timestamps, in order;
this is the cooperative scheduling loop driving `#frame`. -/
def framesRun (ts : List ℚ) (s : PainterState) : PainterState :=
  ts.foldl (fun s now => frame now s) s

/-- `parseFadeDuration`: `0` under reduced motion, the default fade duration
`1.5` s for `animate === true`, otherwise `Number(value)` (`false ↦ 0`,
a number maps to itself). -/
def parseFadeDuration (reduced : Bool) (animate : Bool ⊕ ℚ) : ℚ :=
  if reduced then 0
  else
    match animate with
    | Sum.inl true => 3/2
    | Sum.inl false => 0
    | Sum.inr x => x

/-- `destroy()`: mark destroyed, stop the animation, and remove the
published properties (`background`, `--t`, `--t-stop`, `--fade`, `--gap`,
`--words`, `--density`; note `--accent` and `--fallback` are not in the
removal list, and the in-memory `#_tstop` value itself is not cleared). -/
def destroy (s : PainterState) : PainterState :=
  let s := stopAnimation { s with wasDestroyed := true }
  { s with styleBackground := none, styleT := none, styleTstop := none,
           styleFade := none, styleGap := none, styleWords := none,
           styleDensity := none }

/-- `hide({animate})`: set `#isHidden`, and in the fallback path only swap
the background.  Otherwise set the fade duration, clear the stop mark,
reset the clock to `0` and start the animation.  The method performs no
destroyed check: it never throws. -/
def hide (houdini reduced : Bool) (now : ℚ) (animate : Bool ⊕ ℚ)
    (s : PainterState) : Except String PainterState :=
  if houdini = false ∨ s.forceFallback then
    Except.ok { s with isHidden := true,
                       styleBackground := some BackgroundStyle.fallbackVar }
  else
    Except.ok (startAnimation now (setT 0 (setTstop none
      (setFade (parseFadeDuration reduced animate) { s with isHidden := true }))))

/-- `reveal({animate})`: clear `#isHidden`, and in the fallback path only
remove the background.  Otherwise set the fade duration, set the stop mark
to the current clock value, and stop at once when the duration is not
positive.  The method performs no destroyed check: it never throws. -/
def reveal (houdini reduced : Bool) (animate : Bool ⊕ ℚ)
    (s : PainterState) : Except String PainterState :=
  if houdini = false ∨ s.forceFallback then
    Except.ok { s with isHidden := false, styleBackground := none }
  else if parseFadeDuration reduced animate ≤ 0 then
    Except.ok (stopAnimation (setTstop (some s.t)
      (setFade (parseFadeDuration reduced animate) { s with isHidden := false })))
  else
    Except.ok (setTstop (some s.t)
      (setFade (parseFadeDuration reduced animate) { s with isHidden := false }))

/-- The host facts `update()` reads: Houdini support, the reduced-motion
preference, whether the element's computed display is not `inline`, the
bounding rectangle, and the minimum client-rect height used as the line
height of inline content.  `accentHsl` is the output of the colord
collaborator for the configured accent color (`none` when no accent color
option was given). -/
structure UpdateEnv where
  houdini : Bool
  reduced : Bool
  isBlock : Bool
  rectW : ℚ
  rectH : ℚ
  lineHeight : ℚ
  accentHsl : Option (ℚ × ℚ × ℚ)

/-- The `update()` options with the defaults of `DEFAULT_OPTIONS`
(`fps: 24`, `gap: 6`, `density: 0.12`, `mimicWords: false`,
`fallback: "black"`).  `gap` is used through `Number(gap)`, so it is carried
as a rational; `fallback: false` is carried as `none` (it is falsy, so the
fallback path publishes `"initial"` for it). -/
structure UpdateOptions where
  fps : ℚ := 24
  gap : ℚ := 6
  mimicWords : Bool := false
  density : ℚ := 3/25
  fallback : Option String := some "black"
  forceFallbackOpt : Option Bool := none

/-- `useBackgroundStyle(ws, hs, {tile})`. -/
def useBackgroundStyle (ws hs : Option ℚ) (tile : Bool) (s : PainterState) :
    PainterState :=
  { s with styleBackground := some (BackgroundStyle.paintStyle ws hs tile) }

/-- `update(options)`: throws when the painter was destroyed; otherwise
derives `maxFPS` (forced to `0` under reduced motion), takes the fallback
path when Houdini paint is unavailable or `forceFallback` is set, and
otherwise configures the background sizing strategy (tiled at the prime cap
`293` for oversized blocks, tiled single row at width `333` and line height
for inline content), publishes the capped `--gap` (the cap divides the
available dimensions by the ratio `8`), `--words` (forced `false` for block
elements), `--density`, and `--accent`. -/
def update (env : UpdateEnv) (o : UpdateOptions) (s : PainterState) :
    Except String PainterState :=
  if s.wasDestroyed then
    Except.error "Painter has been destroyed and cannot be used again."
  else
    let s := { s with maxFPS := if env.reduced then 0 else o.fps,
                      forceFallback := o.forceFallbackOpt.getD false }
    if env.houdini = false ∨ o.forceFallbackOpt.getD false then
      Except.ok { s with styleFallback := some (o.fallback.getD "initial") }
    else
      let s := useBackgroundStyle none none false s
      let s :=
        if env.isBlock then
          if 293 * 293 < env.rectW * env.rectH then
            useBackgroundStyle (some (min env.rectW 293)) (some (min env.rectH 293))
              true s
          else
            let capGap := ⌊min o.gap (min (env.rectW / 8) (env.rectH / 8))⌋
            { s with styleGap := some (capGap, capGap) }
        else
          let s := useBackgroundStyle (some 333) (some env.lineHeight) true s
          { s with styleGap := some (0, ⌊min (env.lineHeight / 8) o.gap⌋) }
      let mimic := if env.isBlock then false else o.mimicWords
      let s := { s with styleWords := some mimic, styleDensity := some o.density }
      Except.ok { s with styleAccent := env.accentHsl }

/-! ## Concrete example values used by witnesses and counterexamples -/

/-- A paint configuration: a `100 × 100` logical surface, no gaps, no size
deviation, accent lightness `70`. -/
def sampleConfig : WorkletConfig := ⟨100, 100, 0, 0, 0, 70⟩

/-- A particle with lifetime `7/5` and phase `1`: at world time `0` its
local age is `1`, inside the code's fade-out window. -/
def fadeParticle : ParticleSpec := ⟨3, 3, 5, 1, 0, 0, false, 7/5, 0, 1⟩

/-- The render state the worklet computes for `fadeParticle` at world time
`0`. -/
def fadeRender : RenderState := ⟨4/5, 2/7, 4/5, 29, 35, false⟩

/-- A particle with lifetime `1` and phase `0`: at world time `1/2` its
local age is `1/2`, in the full-visibility plateau. -/
def unitParticle : ParticleSpec := ⟨3, 3, 5, 1, 0, 0, false, 1, 0, 0⟩

/-- The render state the worklet computes for `unitParticle` at world time
`1/2`. -/
def unitRender : RenderState := ⟨1, 1/2, 1, 50, 35, false⟩

/-- The controller state produced by a default `update()` on a fresh
painter attached to a `100 × 100` block element with Houdini support: the
untiled paint background, the capped `--gap` of `6px 6px`, and the
published `--words` and `--density` defaults. -/
def updatedState : PainterState :=
  { maxFPS := 24,
    styleBackground := some (BackgroundStyle.paintStyle none none false),
    styleGap := some (6, 6), styleWords := some false,
    styleDensity := some (3/25) }

/-- A controller state whose clock `5/2` has passed its stop point
`t-stop + fade = 1 + 1`, with a tick pending under handle `3`. -/
def pastStopState : PainterState :=
  { t := 5/2, tstop := some 1, styleTstop := some 1, fadeDuration := 1,
    raf := some 3, nextRafId := 4 }

/-- A running controller state: no stop mark, default `maxFPS`, reference
time `0`. -/
def runningState : PainterState := { tstop := none, maxFPS := 24 }

/-- A controller state after `destroy()` has set the destroyed flag. -/
def destroyedState : PainterState := { wasDestroyed := true }

/-- The controller state produced by `reveal` with a one-second fade taken
at clock value `0` on a fresh state. -/
def revealedZeroState : PainterState :=
  { isHidden := false, fadeDuration := 1, styleFade := some 1,
    tstop := some 0, styleTstop := some 0 }

/-! ## Helper lemmas -/

/-- The unit output of the generator is non-negative. -/
lemma lcgOut_nonneg (s : ℕ) : 0 ≤ lcgOut s := by
  unfold lcgOut
  positivity

/-- The unit output of the generator is at most one (the masked product is
below `2^31`, and the divisor is `2^31 - 1`). -/
lemma lcgOut_le_one (s : ℕ) : lcgOut s ≤ 1 := by
  unfold lcgOut
  rw [div_le_one (by norm_num)]
  have h : (48271 * s) % 2147483648 < 2147483648 := Nat.mod_lt _ (by norm_num)
  exact_mod_cast Nat.le_of_lt_succ h

/-- Bounds of the trapezoidal envelope as invoked by `paint`
(`l = 0.5`): for ages in `[0, n)` the value lies in `[0, 1]`. -/
lemma trapezoidalWave_mem_unit (t n : ℚ) (h0 : 0 ≤ t) (h1 : t < n) :
    0 ≤ trapezoidalWave t (1/2) n ∧ trapezoidalWave t (1/2) n ≤ 1 := by
  unfold trapezoidalWave
  split_ifs with h2 h3
  · have e : t / (1/5 : ℚ) = 5 * t := by ring
    rw [e]
    constructor <;> linarith
  · have e : (n - t) / (1/2 : ℚ) = 2 * (n - t) := by ring
    rw [e]
    constructor <;> linarith
  · norm_num

/-- Splitting an iterated seed advance. -/
lemma lcgIter_add (m n s : ℕ) : lcgIter (m + n) s = lcgIter m (lcgIter n s) := by
  induction m with
  | zero => simp [lcgIter]
  | succ m ih =>
    have e : m + 1 + n = (m + n) + 1 := by omega
    rw [e]
    show lcgStep (lcgIter (m + n) s) = lcgStep (lcgIter m (lcgIter n s))
    rw [ih]

/-- The seed state left behind by one particle is ten generator steps past
the state it started from: every iteration of the paint loop consumes
exactly ten draws, unconditionally. -/
lemma particleSpec_state (cfg : WorkletConfig) (s : ℕ) :
    (particleSpec cfg s).2 = lcgIter 10 s := rfl

/-- Indexing the sequentially threaded paint loop: the `i`-th particle spec
is a function of the base seed and `i` alone. -/
lemma paintSpecs_get (cfg : WorkletConfig) :
    ∀ (k i s0 : ℕ), i < k →
      (paintSpecs cfg k s0)[i]? = some (particleSpec cfg (lcgIter (10 * i) s0)).1 := by
  intro k
  induction k with
  | zero => intro i s0 h; exact absurd h (Nat.not_lt_zero i)
  | succ k ih =>
    intro i s0 h
    cases i with
    | zero => simp [paintSpecs, lcgIter]
    | succ i =>
      have step : (particleSpec cfg s0).2 = lcgIter 10 s0 := particleSpec_state cfg s0
      have h10 : 10 * (i + 1) = 10 * i + 10 := by ring
      rw [paintSpecs]
      rw [List.getElem?_cons_succ, ih i _ (Nat.lt_of_succ_lt_succ h), step,
        ← lcgIter_add, ← h10]

/-- Fields preserved by the frame callback: it only touches the clock, the
reference time, the published `--t` and the scheduling fields. -/
lemma frame_preserves (now : ℚ) (s : PainterState) :
    (frame now s).wasDestroyed = s.wasDestroyed
  ∧ (frame now s).maxFPS = s.maxFPS
  ∧ (frame now s).tstop = s.tstop
  ∧ (frame now s).styleTstop = s.styleTstop
  ∧ (frame now s).fadeDuration = s.fadeDuration
  ∧ (frame now s).isHidden = s.isHidden := by
  unfold frame frameAdvance scheduleTick
  split_ifs <;> simp [setT]

/-- On a live painter whose stop test fails and whose `maxFPS` is positive,
the frame callback is the scheduling step followed by the
throttle-and-advance step. -/
lemma frame_eq (now : ℚ) (s : PainterState) (hd : s.wasDestroyed = false)
    (hf : 0 < s.maxFPS) (hs : shouldStop s = false) :
    frame now s = frameAdvance now (scheduleTick s) := by
  unfold frame
  rw [hd]
  simp only [Bool.false_eq_true, if_false]
  rw [if_pos (show 0 < s.maxFPS ∧ shouldStop s = false from ⟨hf, hs⟩)]

/-- A live frame callback whose stop test fails always schedules the next
tick, consuming one fresh request id. -/
lemma frame_scheduled (now : ℚ) (s : PainterState) (hd : s.wasDestroyed = false)
    (hf : 0 < s.maxFPS) (hs : shouldStop s = false) :
    (frame now s).raf = some s.nextRafId
  ∧ (frame now s).nextRafId = s.nextRafId + 1 := by
  rw [frame_eq now s hd hf hs]
  unfold frameAdvance scheduleTick
  split_ifs <;> simp [setT]

/-- Cancelling the pending tick does not change the hidden flag. -/
lemma stopAnimation_isHidden (s : PainterState) :
    (stopAnimation s).isHidden = s.isHidden := by
  unfold stopAnimation
  cases s.raf with
  | none => rfl
  | some id =>
    dsimp only
    split_ifs <;> rfl

/-- A stop mark of exactly `0` is falsy, so the stop test fails whatever
the clock and fade duration are. -/
lemma shouldStop_zero (s : PainterState) (h : s.tstop = some 0) :
    shouldStop s = false := by
  simp [shouldStop, h]

/-- Iterating the frame callback from a state whose stop mark is `0` keeps
scheduling: each invocation consumes one request id, and the stop mark
stays `0`. -/
lemma framesRun_schedules (ts : List ℚ) :
    ∀ s : PainterState, s.wasDestroyed = false → 0 < s.maxFPS → s.tstop = some 0 →
      (framesRun ts s).nextRafId = s.nextRafId + ts.length
    ∧ (framesRun ts s).tstop = some 0
    ∧ (framesRun ts s).wasDestroyed = false
    ∧ (framesRun ts s).maxFPS = s.maxFPS := by
  induction ts with
  | nil => intro s hd hf h0; simp [framesRun, hd, h0]
  | cons now ts ih =>
    intro s hd hf h0
    have pres := frame_preserves now s
    have step := frame_scheduled now s hd hf (shouldStop_zero s h0)
    have hrun : framesRun (now :: ts) s = framesRun ts (frame now s) := rfl
    have ih2 := ih (frame now s) (pres.1.trans hd) (pres.2.1 ▸ hf)
      (pres.2.2.1.trans h0)
    rw [hrun]
    refine ⟨?_, ih2.2.1, ih2.2.2.1, ih2.2.2.2.trans pres.2.1⟩
    rw [ih2.1, step.2, List.length_cons]
    omega

/-! ## Claims about the worklet -/

/-- C9 (amended): for bounds `a ≤ b` every draw of the generator lies in the
closed interval `[a, b]` (the divisor `0x7fffffff` equals the largest masked
value, so the upper endpoint is attained — the range is not half-open), and
with `a = b` every draw returns the constant `a`.  The draw is a total
function: it never throws. -/
theorem lcg_draw_range (a b : ℚ) (s : ℕ) (h : a ≤ b) :
    a ≤ (draw a b s).1 ∧ (draw a b s).1 ≤ b ∧ (draw a a s).1 = a := by
  have hu0 := lcgOut_nonneg (lcgStep s)
  have hu1 := lcgOut_le_one (lcgStep s)
  have habs : |b - a| = b - a := abs_of_nonneg (by linarith)
  refine ⟨?_, ?_, ?_⟩
  · show a ≤ a + |b - a| * lcgOut (lcgStep s)
    rw [habs]
    nlinarith
  · show a + |b - a| * lcgOut (lcgStep s) ≤ b
    rw [habs]
    nlinarith
  · show a + |a - a| * lcgOut (lcgStep s) = a
    simp

/-- C9 witness: the default-range draw from seed state `1` lies in `[0, 1]`
and the degenerate range returns the constant. -/
theorem lcg_draw_range_witness :
    (0 : ℚ) ≤ (draw 0 1 1).1 ∧ (draw 0 1 1).1 ≤ 1 ∧ (draw 0 0 1).1 = 0 :=
  lcg_draw_range 0 1 1 (by norm_num)

/-- C9 counterexample: from seed state `1078560870` the next default-range
draw is exactly `1`, so the claimed half-open range `[0, 1)` is violated. -/
theorem lcg_draw_hits_upper_bound :
    (draw 0 1 1078560870).1 = 1 ∧ ¬ (draw 0 1 1078560870).1 < 1 := by
  constructor
  · norm_num [draw, lcgOut, lcgStep]
  · norm_num [draw, lcgOut, lcgStep]

/-- C2 (amended): the wrap always returns exactly two draw positions.  On
each axis the second position differs from the first by exactly the surface
dimension when the wrapped coordinate is within the mirror radius of an
edge (`+dim` near the low edge, `-dim` near the high edge, low edge checked
first), and coincides with the first otherwise — so the "exactly one
position" case of the claim is really a duplicated position. -/
theorem cycleBounds_two_positions (x y w h r : ℚ) :
    cycleBounds (x, y) (w, h) r =
      [(_cycle x w, _cycle y h),
       (_cycle x w + (if _cycle x w < r then w
                      else if w - r < _cycle x w then -w else 0),
        _cycle y h + (if _cycle y h < r then h
                      else if h - r < _cycle y h then -h else 0))]
  ∧ (cycleBounds (x, y) (w, h) r).length = 2 := by
  have hm : ∀ u n : ℚ, _mirror u n r =
      u + (if u < r then n else if n - r < u then -n else 0) := by
    intro u n
    unfold _mirror
    split_ifs <;> ring
  constructor
  · simp [cycleBounds, hm]
  · simp [cycleBounds]

/-- C2 counterexample: the wrapped point `(5, 5)` of a `10 × 10` surface is
not within `r = 2` of any edge, yet `cycleBounds` still returns two
positions (the second merely equal to the first) — not the "exactly one"
the claim states. -/
theorem cycleBounds_interior_still_two :
    (cycleBounds (5, 5) (10, 10) 2).length = 2
  ∧ (cycleBounds (5, 5) (10, 10) 2).length ≠ 1
  ∧ cycleBounds (5, 5) (10, 10) 2 = [(5, 5), (5, 5)]
  ∧ _cycle 5 10 = 5
  ∧ ¬ ((5 : ℚ) < 2 ∨ (10 : ℚ) - 2 < 5) := by
  refine ⟨by with_unfolding_all decide, by with_unfolding_all decide,
    by with_unfolding_all decide, by with_unfolding_all decide, by norm_num⟩

/-- C5 (amended): the visibility envelope of a rendered particle is the
trapezoid with fade-in `t / 0.2` over the first `0.2` time units and linear
fade-out over the final `0.5` time units (`(lifetime - t) / 0.5` once
`t > lifetime - 0.5`) — the fade-out window is the constant `l = 0.5`
passed by `paint`, not the final `lifetime - 0.2` portion. -/
theorem visibility_envelope_shape (cfg : WorkletConfig) (worldt : ℚ)
    (p : ParticleSpec) (rs : RenderState)
    (h : renderParticle cfg worldt p = some rs) :
    rs.visibility =
      (if localAge worldt p < 1/5 then 5 * localAge worldt p
       else if p.lifetime - 1/2 < localAge worldt p then
         2 * (p.lifetime - localAge worldt p)
       else 1) := by
  unfold renderParticle at h
  by_cases hge : p.lifetime ≤ localAge worldt p
  · simp [hge] at h
  · simp only [hge, if_false] at h
    obtain rfl : _ = rs := Option.some.inj h
    show trapezoidalWave (localAge worldt p) (1/2) p.lifetime = _
    unfold trapezoidalWave
    split_ifs <;> ring

/-- C5 witness: a particle with lifetime `7/5` at local age `1` (inside the
actual fade-out window `t > lifetime - 0.5`) has envelope `4/5`. -/
theorem visibility_envelope_shape_witness :
    fadeRender.visibility =
      (if localAge 0 fadeParticle < 1/5 then 5 * localAge 0 fadeParticle
       else if fadeParticle.lifetime - 1/2 < localAge 0 fadeParticle then
         2 * (fadeParticle.lifetime - localAge 0 fadeParticle)
       else 1) :=
  visibility_envelope_shape sampleConfig 0 fadeParticle fadeRender
    (by with_unfolding_all decide)

/-- C5 counterexample: at age `1` of a lifetime-`7/5` particle the code
envelope (`l = 0.5` as passed by `paint`) gives `4/5`, while the claimed
fade-out window of length `lifetime - 0.2` would give `1/3`. -/
theorem visibility_envelope_window_differs :
    trapezoidalWave 1 (1/2) (7/5) = 4/5
  ∧ specTrapezoid 1 (7/5) = 1/3
  ∧ trapezoidalWave 1 (1/2) (7/5) ≠ specTrapezoid 1 (7/5) := by
  refine ⟨?_, ?_, ?_⟩ <;> norm_num [trapezoidalWave, specTrapezoid]

/-- C6: for a rendered particle (local age in `[0, lifetime)`), the opacity
is exactly `1 - t / lifetime` and lies in `[0, 1]`, the size envelope lies
in `[0, 1]`, and any particle whose local age reaches its lifetime is
skipped entirely (the loop `continue`s without drawing). -/
theorem particle_visibility_bounds (cfg : WorkletConfig) (worldt : ℚ)
    (p : ParticleSpec) (rs : RenderState)
    (hl : 0 < p.lifetime) (h0 : 0 ≤ localAge worldt p)
    (h : renderParticle cfg worldt p = some rs) :
    rs.alpha = 1 - localAge worldt p / p.lifetime
  ∧ 0 ≤ rs.alpha ∧ rs.alpha ≤ 1
  ∧ 0 ≤ rs.visibility ∧ rs.visibility ≤ 1
  ∧ ∀ (wt : ℚ) (q : ParticleSpec),
      q.lifetime ≤ localAge wt q → renderParticle cfg wt q = none := by
  unfold renderParticle at h
  by_cases hge : p.lifetime ≤ localAge worldt p
  · simp [hge] at h
  · have hlt : localAge worldt p < p.lifetime := lt_of_not_le hge
    simp only [hge, if_false] at h
    obtain rfl : _ = rs := Option.some.inj h
    have henv := trapezoidalWave_mem_unit (localAge worldt p) p.lifetime h0 hlt
    have hdiv0 : 0 ≤ localAge worldt p / p.lifetime := div_nonneg h0 hl.le
    have hdiv1 : localAge worldt p / p.lifetime < 1 := (div_lt_one hl).mpr hlt
    refine ⟨rfl, by simpa using hdiv1.le, by simpa using hdiv0, henv.1, henv.2, ?_⟩
    intro wt q hq
    simp [renderParticle, hq]

/-- C6 witness: the lifetime-`1`, phase-`0` particle at world time `1/2`. -/
theorem particle_visibility_bounds_witness :
    unitRender.alpha = 1 - localAge (1/2) unitParticle / unitParticle.lifetime
  ∧ 0 ≤ unitRender.alpha ∧ unitRender.alpha ≤ 1 := by
  have h := particle_visibility_bounds sampleConfig (1/2) unitParticle unitRender
    (by norm_num [unitParticle]) (by with_unfolding_all decide)
    (by with_unfolding_all decide)
  exact ⟨h.1, h.2.1, h.2.2.1⟩

/-- C3: the paint loop seeds one generator from the fixed base seed and
threads it through the particles; the seed state a particle draws from is
derived deterministically from the base seed (ten steps per preceding
particle), so the `i`-th particle's spec is a function of `(i, base seed)`
only; and the ten draws of a particle happen in the fixed source order:
origin x, origin y, initial speed, initial size, hue-lightness blend
factor, launch angle, shape choice, lifetime, respawn gap, phase. -/
theorem particle_draw_order (cfg : WorkletConfig) (k i s0 : ℕ) (h : i < k) :
    (paintSpecs cfg k s0)[i]? = some (particleSpec cfg (lcgIter (10 * i) s0)).1
  ∧ ∀ s : ℕ,
      (particleSpec cfg s).1.x0 = (draw cfg.vgap (cfg.width - cfg.vgap) s).1
    ∧ (particleSpec cfg s).1.y0 = (draw cfg.hgap (cfg.height - cfg.hgap) (lcgIter 1 s)).1
    ∧ (particleSpec cfg s).1.v0mag = (draw 2 12 (lcgIter 2 s)).1
    ∧ (particleSpec cfg s).1.size0 = (draw 1 (1 + cfg.sizedev) (lcgIter 3 s)).1
    ∧ (particleSpec cfg s).1.blend = (draw 0 1 (lcgIter 4 s)).1
    ∧ (particleSpec cfg s).1.angleUnit = (draw 0 1 (lcgIter 5 s)).1
    ∧ (particleSpec cfg s).1.shapeSquare = decide (1/2 < (draw 0 1 (lcgIter 6 s)).1)
    ∧ (particleSpec cfg s).1.lifetime = (draw (3/10) (3/2) (lcgIter 7 s)).1
    ∧ (particleSpec cfg s).1.respawn = (draw 0 1 (lcgIter 8 s)).1
    ∧ (particleSpec cfg s).1.phase =
        (draw 0 ((draw (3/10) (3/2) (lcgIter 7 s)).1 + (draw 0 1 (lcgIter 8 s)).1)
          (lcgIter 9 s)).1 := by
  refine ⟨paintSpecs_get cfg k i s0 h, fun s => ?_⟩
  exact ⟨rfl, rfl, rfl, rfl, rfl, rfl, rfl, rfl, rfl, rfl⟩

/-- C3 witness: in a two-particle paint from the base seed, the second
particle's spec is read off directly from the state ten steps past the
base seed. -/
theorem particle_draw_order_witness :
    (paintSpecs sampleConfig 2 baseSeed)[1]? =
      some (particleSpec sampleConfig (lcgIter (10 * 1) baseSeed)).1 :=
  (particle_draw_order sampleConfig 2 1 baseSeed (by norm_num)).1

/-- C7: the worklet does not read the published `--density` channel value —
`--density` is not even among its `inputProperties` — and computes the
particle count from the hard-coded local constant `density = 6`.  On a
`100 × 100` surface with the controller's default published density `0.12`
the code count `min(4000, 10000 / 6)` differs from the claimed
`min(4000, 10000 / 0.12)`, even though `update` does publish
`--density = 0.12`. -/
theorem density_channel_ignored :
    nParticles 100 100 = 5000/3
  ∧ specNParticles 100 100 (3/25) = 4000
  ∧ nParticles 100 100 ≠ specNParticles 100 100 (3/25)
  ∧ "--density" ∉ inputProperties
  ∧ (update ⟨true, false, true, 100, 100, 16, none⟩ {} {}).toOption.map
      PainterState.styleDensity = some (some (3/25)) := by
  refine ⟨by norm_num [nParticles, min_def], by norm_num [specNParticles, min_def],
    by norm_num [nParticles, specNParticles, min_def], by decide, ?_⟩
  rw [show update ⟨true, false, true, 100, 100, 16, none⟩ {} {} =
      Except.ok updatedState by with_unfolding_all rfl]
  rfl

/-! ## Claims about the controller -/

/-- C1 (amended): once the published clock exceeds a nonzero stop mark plus
the (positive) fade duration, the frame callback schedules no further tick
(the request-id counter does not move); but it does not clear the pending
frame handle, so `isAnimating` keeps its previous answer, and it does not
clear the stop mark, so the published `--t-stop` value stays as it was —
both are only reset later by `hide` / `stopAnimation` / `destroy`. -/
theorem autostop_no_reschedule (s : PainterState) (now v : ℚ)
    (hd : s.wasDestroyed = false) (hv : s.tstop = some v) (hvne : v ≠ 0)
    (hf : 0 < s.fadeDuration) (ht : v + s.fadeDuration < s.t) :
    (frame now s).raf = s.raf
  ∧ (frame now s).nextRafId = s.nextRafId
  ∧ isAnimating (frame now s) = isAnimating s
  ∧ (frame now s).tstop = some v
  ∧ (frame now s).styleTstop = s.styleTstop := by
  have hss : shouldStop s = true := by
    simp [shouldStop, hv, hvne, ht]
  unfold frame
  rw [hd]
  simp only [Bool.false_eq_true, if_false]
  rw [if_neg (show ¬(0 < s.maxFPS ∧ shouldStop s = false) by simp [hss])]
  unfold frameAdvance
  split_ifs <;> simp [setT, isAnimating, hv]

/-- C1 witness for the amended statement: a concrete state past its stop
point keeps its pending handle, its request-id counter and its published
`--t-stop`. -/
theorem autostop_no_reschedule_witness :
    (frame 100 pastStopState).raf = pastStopState.raf
  ∧ (frame 100 pastStopState).nextRafId = pastStopState.nextRafId
  ∧ isAnimating (frame 100 pastStopState) = isAnimating pastStopState
  ∧ (frame 100 pastStopState).tstop = some 1
  ∧ (frame 100 pastStopState).styleTstop = pastStopState.styleTstop :=
  autostop_no_reschedule pastStopState 100 1 rfl rfl (by norm_num)
    (by norm_num [pastStopState]) (by norm_num [pastStopState])

/-- C1 counterexample: in a state whose clock `5/2` has passed
`t-stop + fade = 1 + 1` with a tick pending, running the frame callback
leaves `isAnimating` true and leaves `--t-stop` published — contradicting
the claimed transition to Idle with `isAnimating` false and `t-stop`
cleared. -/
theorem autostop_not_idle :
    pastStopState.tstop = some 1
  ∧ pastStopState.fadeDuration = 1
  ∧ pastStopState.t > 1 + 1
  ∧ isAnimating (frame 100 pastStopState) = true
  ∧ (frame 100 pastStopState).styleTstop = some 1
  ∧ (frame 100 pastStopState).nextRafId = pastStopState.nextRafId := by
  refine ⟨rfl, rfl, by norm_num [pastStopState], by with_unfolding_all decide,
    by with_unfolding_all decide, by with_unfolding_all decide⟩

/-- C4: a running (no stop mark, positive `maxFPS`, live) frame tick always
schedules the next tick first; with `dt = now - t0 ≥ 0`, it advances the
published clock by `dt / 1000` seconds and moves the reference time to
`now` exactly when `dt = 0` (first tick after start) or
`dt ≥ 1000 / maxFPS` ms, and otherwise changes neither the clock, the
published `--t`, nor the reference time. -/
theorem frame_throttle (s : PainterState) (now : ℚ)
    (hd : s.wasDestroyed = false) (hrun : s.tstop = none)
    (hf : 0 < s.maxFPS) (hdt : 0 ≤ now - s.t0) :
    (frame now s).raf = some s.nextRafId
  ∧ (frame now s).nextRafId = s.nextRafId + 1
  ∧ (now - s.t0 = 0 ∨ 1000 / s.maxFPS ≤ now - s.t0 →
       (frame now s).t = s.t + (now - s.t0) / 1000
     ∧ (frame now s).styleT = some (s.t + (now - s.t0) / 1000)
     ∧ (frame now s).t0 = now)
  ∧ (0 < now - s.t0 ∧ now - s.t0 < 1000 / s.maxFPS →
       (frame now s).t = s.t ∧ (frame now s).styleT = s.styleT
     ∧ (frame now s).t0 = s.t0) := by
  have hss : shouldStop s = false := by simp [shouldStop, hrun]
  have hsched := frame_scheduled now s hd hf hss
  have he := frame_eq now s hd hf hss
  refine ⟨hsched.1, hsched.2, ?_, ?_⟩
  · intro hadv
    have hskip : ¬(0 < now - (scheduleTick s).t0 ∧ ((scheduleTick s).maxFPS = 0 ∨
        now - (scheduleTick s).t0 < 1000 / (scheduleTick s).maxFPS)) := by
      simp only [scheduleTick]
      rintro ⟨h1, h2 | h2⟩
      · linarith
      · rcases hadv with h3 | h3
        · linarith
        · linarith
    rw [he]
    unfold frameAdvance
    rw [if_neg hskip]
    simp [setT, scheduleTick]
  · intro hskip
    have hc : 0 < now - (scheduleTick s).t0 ∧ ((scheduleTick s).maxFPS = 0 ∨
        now - (scheduleTick s).t0 < 1000 / (scheduleTick s).maxFPS) := by
      simp only [scheduleTick]
      exact ⟨hskip.1, Or.inr hskip.2⟩
    rw [he]
    unfold frameAdvance
    rw [if_pos hc]
    simp [scheduleTick]

/-- C4 witness: from reference time `0`, a tick at `now = 50` ms with
`maxFPS = 24` (threshold `125/3` ms) schedules and advances the clock by
`1/20` s. -/
theorem frame_throttle_witness :
    (frame 50 runningState).raf = some runningState.nextRafId
  ∧ (frame 50 runningState).nextRafId = runningState.nextRafId + 1
  ∧ ((50 : ℚ) - runningState.t0 = 0 ∨
       1000 / runningState.maxFPS ≤ 50 - runningState.t0 →
       (frame 50 runningState).t = runningState.t + (50 - runningState.t0) / 1000
     ∧ (frame 50 runningState).styleT =
         some (runningState.t + (50 - runningState.t0) / 1000)
     ∧ (frame 50 runningState).t0 = 50)
  ∧ ((0 : ℚ) < 50 - runningState.t0 ∧
       50 - runningState.t0 < 1000 / runningState.maxFPS →
       (frame 50 runningState).t = runningState.t
     ∧ (frame 50 runningState).styleT = runningState.styleT
     ∧ (frame 50 runningState).t0 = runningState.t0) :=
  frame_throttle runningState 50 rfl rfl (by norm_num [runningState])
    (by norm_num [runningState])

/-- C8 (amended): after `destroy()`, `update()` fails loudly (it throws),
but `hide()` and `reveal()` perform no destroyed check: they return
normally and still mutate the torn-down state (`hide` even republishes the
channel values), with only the frame callback itself inert. -/
theorem destroyed_op_behavior (s : PainterState) (env : UpdateEnv)
    (o : UpdateOptions) (houdini reduced : Bool) (now : ℚ) (animate : Bool ⊕ ℚ)
    (h : s.wasDestroyed = true) :
    update env o s = Except.error "Painter has been destroyed and cannot be used again."
  ∧ (hide houdini reduced now animate s).toOption.isSome = true
  ∧ (reveal houdini reduced animate s).toOption.isSome = true
  ∧ (hide houdini reduced now animate s).toOption.map PainterState.isHidden = some true
  ∧ (reveal houdini reduced animate s).toOption.map PainterState.isHidden = some false := by
  have hfi : ∀ (nw : ℚ) (u : PainterState), (frame nw u).isHidden = u.isHidden :=
    fun nw u => (frame_preserves nw u).2.2.2.2.2
  refine ⟨by simp [update, h], ?_, ?_, ?_, ?_⟩
  · unfold hide
    split_ifs <;> simp [Except.toOption]
  · unfold reveal
    split_ifs <;> simp [Except.toOption]
  · unfold hide
    split_ifs
    · simp [Except.toOption]
    · simp [Except.toOption, startAnimation, hfi, setT, setTstop, setFade]
  · unfold reveal
    split_ifs
    · simp [Except.toOption]
    · simp [Except.toOption, stopAnimation_isHidden, setTstop, setFade]
    · simp [Except.toOption, setTstop, setFade]

/-- C8 witness: on a concrete destroyed state, `update` throws while `hide`
and `reveal` return normally. -/
theorem destroyed_op_behavior_witness :
    update ⟨true, false, true, 100, 100, 16, none⟩ {} destroyedState =
      Except.error "Painter has been destroyed and cannot be used again."
  ∧ (hide true false 0 (Sum.inl true) destroyedState).toOption.isSome = true
  ∧ (reveal true false (Sum.inl true) destroyedState).toOption.isSome = true :=
  have h := destroyed_op_behavior destroyedState
    ⟨true, false, true, 100, 100, 16, none⟩ {} true false 0 (Sum.inl true) rfl
  ⟨h.1, h.2.1, h.2.2.1⟩

/-- C8 counterexample: `hide` invoked on a destroyed painter does not fail —
it returns normally and even republishes `--t = 0` on the torn-down
element. -/
theorem hide_after_destroy_proceeds :
    destroyedState.wasDestroyed = true
  ∧ (hide true false 0 (Sum.inl true) destroyedState).toOption.isSome = true
  ∧ (hide true false 0 (Sum.inl true) destroyedState).toOption.map
      PainterState.styleT = some (some 0) := by
  refine ⟨rfl, by with_unfolding_all decide, by with_unfolding_all decide⟩

/-- C10: a `reveal` with positive fade duration taken while the clock value
is exactly `0` stores stop mark `0`; because the frame callback tests the
stop mark for truthiness (`this.#tstop && ...`), a zero stop mark makes the
stop condition false forever, so every later frame invocation schedules yet
another tick (the request-id counter grows by one per invocation over any
sequence of host timestamps) and the painter never auto-stops. -/
theorem reveal_at_zero_never_stops (animate : Bool ⊕ ℚ) (s s2 : PainterState)
    (ts : List ℚ)
    (hd : s.wasDestroyed = false) (hff : s.forceFallback = false) (ht : s.t = 0)
    (hf : 0 < s.maxFPS) (hdur : 0 < parseFadeDuration false animate)
    (h : reveal true false animate s = Except.ok s2) :
    s2.tstop = some 0
  ∧ s2.styleTstop = some 0
  ∧ shouldStop s2 = false
  ∧ (framesRun ts s2).nextRafId = s2.nextRafId + ts.length
  ∧ (framesRun ts s2).tstop = some 0 := by
  unfold reveal at h
  rw [if_neg (by simp [hff])] at h
  rw [if_neg (not_le.mpr hdur)] at h
  obtain rfl : _ = s2 := Except.ok.inj h
  have h0 : (setTstop (some s.t) (setFade (parseFadeDuration false animate)
      { s with isHidden := false })).tstop = some 0 := by
    simp [setTstop, setFade, ht]
  refine ⟨h0, by simp [setTstop, setFade, ht], shouldStop_zero _ h0, ?_, ?_⟩
  · exact (framesRun_schedules ts _ (by simp [setTstop, setFade, hd])
      (by simp [setTstop, setFade, hf]) h0).1
  · exact (framesRun_schedules ts _ (by simp [setTstop, setFade, hd])
      (by simp [setTstop, setFade, hf]) h0).2.1

/-- C10 witness: revealing with a one-second fade at clock `0` and then
running three frame ticks schedules three further ticks and keeps the zero
stop mark. -/
theorem reveal_at_zero_never_stops_witness :
    revealedZeroState.tstop = some 0
  ∧ revealedZeroState.styleTstop = some 0
  ∧ shouldStop revealedZeroState = false
  ∧ (framesRun [0, 20, 100] revealedZeroState).nextRafId =
      revealedZeroState.nextRafId + ([0, 20, 100] : List ℚ).length
  ∧ (framesRun [0, 20, 100] revealedZeroState).tstop = some 0 :=
  reveal_at_zero_never_stops (Sum.inr 1) {} revealedZeroState [0, 20, 100]
    rfl rfl rfl (show (0 : ℚ) < 24 by norm_num) (show (0 : ℚ) < 1 by norm_num)
    (by with_unfolding_all rfl)

end Spoiled
